import Mathlib

/-!
Verification of the trading-bot session engine.

Shallow embedding of the repository's Python sources over exact rationals:
* `utils.py`      — `calculate_rsi`, `calculate_sma`
* `strategy_engine.py` — `generate_signal`, `evaluate_strategy`
* `fake_wallet.py` — `buy`/`sell` ledger operations (state passed explicitly,
  timestamps passed as an explicit string argument instead of reading the clock)
* `session_manager.py` — the price-history buffer update (`on_kline_update`),
  the trading-loop guard and its shutdown (`finally`) sequence, and the
  stream-failure signal
* `main.py`       — the `start_session` control endpoint
* `summary_report.py` — `generate_summary` (the `round(...)` presentation and
  the timestamp field are omitted; they do not affect any property below)

Python floats are modelled as `ℚ`; theorems about RSI consequently assume
`1 ≤ period`, the only regime the call sites use (default 14) and the one in
which the float computation is NaN-free.
-/

namespace TradingBot

/-- Mean of a list, `np.mean`: sum divided by length. -/
def listMean (l : List ℚ) : ℚ := l.sum / (l.length : ℚ)

/-- Python slice `l[-n:]` for a natural `n`: the whole list when `n = 0`,
otherwise the last `min n (length l)` elements. -/
def lastSlice (l : List ℚ) (n : ℕ) : List ℚ :=
  if n = 0 then l else l.drop (l.length - n)

/-- `np.diff`: consecutive differences of a list. -/
def deltas : List ℚ → List ℚ
  | [] => []
  | [_] => []
  | a :: b :: rest => (b - a) :: deltas (b :: rest)

/-- `np.where(deltas > 0, deltas, 0)` from `calculate_rsi`. -/
def gainsOf (ds : List ℚ) : List ℚ := ds.map fun d => if 0 < d then d else 0

/-- `np.where(deltas < 0, -deltas, 0)` from `calculate_rsi`. -/
def lossesOf (ds : List ℚ) : List ℚ := ds.map fun d => if d < 0 then -d else 0

/-- The local `avg_gain = np.mean(gains[-period:])` of `calculate_rsi`. -/
def rsiAvgGain (prices : List ℚ) (period : ℕ) : ℚ :=
  listMean (lastSlice (gainsOf (deltas prices)) period)

/-- The local `avg_loss = np.mean(losses[-period:])` of `calculate_rsi`. -/
def rsiAvgLoss (prices : List ℚ) (period : ℕ) : ℚ :=
  listMean (lastSlice (lossesOf (deltas prices)) period)

/-- `utils.calculate_rsi`: default 50 on insufficient data, 100 when the
average loss is zero, otherwise `100 - 100/(1+rs)` with `rs` the ratio of
average gain to average loss. -/
def calculate_rsi (prices : List ℚ) (period : ℕ) : ℚ :=
  if prices.length < period + 1 then 50
  else if rsiAvgLoss prices period = 0 then 100
  else 100 - 100 / (1 + rsiAvgGain prices period / rsiAvgLoss prices period)

/-- `utils.calculate_sma`: mean of the last `period` closes, or of all
available closes when fewer than `period` are present. -/
def calculate_sma (prices : List ℚ) (period : ℕ) : ℚ :=
  if prices.length < period then listMean prices
  else listMean (lastSlice prices period)

/-- `strategy_engine.generate_signal`: BUY if RSI < 30 and price > SMA,
else SELL if RSI > 70 or price < SMA, else HOLD. -/
def generate_signal (price rsi_value sma_value : ℚ) : String :=
  if rsi_value < 30 ∧ price > sma_value then "BUY"
  else if rsi_value > 70 ∨ price < sma_value then "SELL"
  else "HOLD"

/-- `strategy_engine.evaluate_strategy`. The `closes[-1]` lookup is modelled
with `getLast?`; an empty list there corresponds to the `IndexError` that the
surrounding `try/except` turns into `("HOLD", None, None)`. -/
def evaluate_strategy (closes : List ℚ) (sma_period rsi_period : ℕ) :
    String × Option ℚ × Option ℚ :=
  if closes.length < max sma_period rsi_period then ("HOLD", none, none)
  else
    match closes.getLast? with
    | none => ("HOLD", none, none)
    | some current_price =>
        let sma := calculate_sma closes sma_period
        let rsi := calculate_rsi closes rsi_period
        (generate_signal current_price rsi sma, some rsi, some sma)

end TradingBot

namespace TradingBot

/-- C3: a price history strictly shorter than `max smaPeriod rsiPeriod` makes
`evaluate_strategy` return HOLD with undefined (none) RSI and SMA. -/
theorem evaluate_strategy_insufficient (closes : List ℚ) (sma_period rsi_period : ℕ)
    (h : closes.length < max sma_period rsi_period) :
    evaluate_strategy closes sma_period rsi_period = ("HOLD", none, none) := by
  unfold evaluate_strategy
  rw [if_pos h]

/-- C3 witness: a two-element history is below `max 20 14`, so the strategy
holds with undefined indicators. -/
theorem evaluate_strategy_insufficient_witness :
    evaluate_strategy [1, 2] 20 14 = ("HOLD", none, none) :=
  evaluate_strategy_insufficient [1, 2] 20 14 (by decide)

/-- C5: signal precedence — BUY when RSI < 30 and price > SMA; otherwise SELL
when RSI > 70 or price < SMA; otherwise HOLD; together with the three concrete
instances of the spec. -/
theorem generate_signal_precedence (price rsi sma : ℚ) :
    (rsi < 30 ∧ price > sma → generate_signal price rsi sma = "BUY") ∧
    (¬(rsi < 30 ∧ price > sma) → (rsi > 70 ∨ price < sma) →
      generate_signal price rsi sma = "SELL") ∧
    (¬(rsi < 30 ∧ price > sma) → ¬(rsi > 70 ∨ price < sma) →
      generate_signal price rsi sma = "HOLD") ∧
    generate_signal 110 25 100 = "BUY" ∧
    generate_signal 90 75 100 = "SELL" ∧
    generate_signal 100 50 100 = "HOLD" := by
  refine ⟨?_, ?_, ?_, by decide, by decide, by decide⟩
  · intro h
    unfold generate_signal
    rw [if_pos h]
  · intro h1 h2
    unfold generate_signal
    rw [if_neg h1, if_pos h2]
  · intro h1 h2
    unfold generate_signal
    rw [if_neg h1, if_neg h2]

/-- C5 witness: the three concrete signal instances, read off from the
precedence theorem with its hypotheses discharged concretely. -/
theorem generate_signal_precedence_witness :
    generate_signal 110 25 100 = "BUY" ∧
    generate_signal 90 75 100 = "SELL" ∧
    generate_signal 100 50 100 = "HOLD" :=
  ⟨(generate_signal_precedence 110 25 100).1 (by norm_num),
   ((generate_signal_precedence 90 75 100).2.1 (by norm_num) (by norm_num)),
   ((generate_signal_precedence 100 50 100).2.2.1 (by norm_num) (by norm_num))⟩

/-- Helper: `generate_signal` only ever produces one of the three signals. -/
theorem generate_signal_mem (price rsi sma : ℚ) :
    generate_signal price rsi sma = "BUY" ∨ generate_signal price rsi sma = "SELL" ∨
      generate_signal price rsi sma = "HOLD" := by
  unfold generate_signal
  split_ifs <;> simp

/-- C10: `evaluate_strategy` is total and its signal component is always one
of BUY, SELL, HOLD; the degenerate empty-history case (the path on which the
Python code would raise internally and be caught) yields `("HOLD", none, none)`. -/
theorem evaluate_strategy_total (closes : List ℚ) (sma_period rsi_period : ℕ) :
    ((evaluate_strategy closes sma_period rsi_period).1 = "BUY" ∨
     (evaluate_strategy closes sma_period rsi_period).1 = "SELL" ∨
     (evaluate_strategy closes sma_period rsi_period).1 = "HOLD") ∧
    evaluate_strategy [] sma_period rsi_period = ("HOLD", none, none) := by
  constructor
  · unfold evaluate_strategy
    split_ifs
    · simp
    · cases hl : closes.getLast? with
      | none => simp [hl]
      | some p =>
          simp only [hl]
          exact generate_signal_mem p (calculate_rsi closes rsi_period)
            (calculate_sma closes sma_period)
  · unfold evaluate_strategy
    split_ifs <;> rfl

/-- Helper: a mean of a list of nonnegative rationals is nonnegative. -/
theorem listMean_nonneg (l : List ℚ) (h : ∀ x ∈ l, 0 ≤ x) : 0 ≤ listMean l :=
  div_nonneg (List.sum_nonneg h) (Nat.cast_nonneg _)

/-- Helper: every element of a trailing slice is an element of the list. -/
theorem mem_of_mem_lastSlice (l : List ℚ) (n : ℕ) (x : ℚ) (hx : x ∈ lastSlice l n) :
    x ∈ l := by
  unfold lastSlice at hx
  split_ifs at hx
  · exact hx
  · exact List.drop_subset _ _ hx

/-- Helper: gains are nonnegative. -/
theorem gainsOf_nonneg (ds : List ℚ) (x : ℚ) (hx : x ∈ gainsOf ds) : 0 ≤ x := by
  unfold gainsOf at hx
  obtain ⟨d, _, rfl⟩ := List.mem_map.mp hx
  split_ifs with h
  · exact le_of_lt h
  · exact le_refl 0

/-- Helper: losses are nonnegative. -/
theorem lossesOf_nonneg (ds : List ℚ) (x : ℚ) (hx : x ∈ lossesOf ds) : 0 ≤ x := by
  unfold lossesOf at hx
  obtain ⟨d, _, rfl⟩ := List.mem_map.mp hx
  split_ifs with h
  · linarith
  · exact le_refl 0

/-- Helper: the average gain of `calculate_rsi` is nonnegative. -/
theorem rsiAvgGain_nonneg (prices : List ℚ) (period : ℕ) :
    0 ≤ rsiAvgGain prices period :=
  listMean_nonneg _ fun x hx =>
    gainsOf_nonneg (deltas prices) x (mem_of_mem_lastSlice _ _ _ hx)

/-- Helper: the average loss of `calculate_rsi` is nonnegative. -/
theorem rsiAvgLoss_nonneg (prices : List ℚ) (period : ℕ) :
    0 ≤ rsiAvgLoss prices period :=
  listMean_nonneg _ fun x hx =>
    lossesOf_nonneg (deltas prices) x (mem_of_mem_lastSlice _ _ _ hx)

/-- Helper: the RSI mapping through the gain/loss ratio stays strictly
below 100 and at or above 0. -/
theorem rsi_formula_bounds (prices : List ℚ) (period : ℕ) :
    0 ≤ 100 - 100 / (1 + rsiAvgGain prices period / rsiAvgLoss prices period) ∧
    100 - 100 / (1 + rsiAvgGain prices period / rsiAvgLoss prices period) < 100 := by
  have hg : 0 ≤ rsiAvgGain prices period := rsiAvgGain_nonneg prices period
  have hl0 : 0 ≤ rsiAvgLoss prices period := rsiAvgLoss_nonneg prices period
  have hrs : 0 ≤ rsiAvgGain prices period / rsiAvgLoss prices period := div_nonneg hg hl0
  have h1rs : (0 : ℚ) < 1 + rsiAvgGain prices period / rsiAvgLoss prices period := by
    linarith
  have hdp : 0 < 100 / (1 + rsiAvgGain prices period / rsiAvgLoss prices period) :=
    div_pos (by norm_num) h1rs
  have hdl : 100 / (1 + rsiAvgGain prices period / rsiAvgLoss prices period) ≤ 100 := by
    rw [div_le_iff₀ h1rs]
    nlinarith
  constructor <;> linarith

/-- C4: for histories with a full period of data, the RSI is in [0, 100],
equals 100 exactly when the average loss over the period is 0, and otherwise
equals `100 - 100/(1+rs)` with `rs` the gain/loss ratio; the [0, 100] bound
holds for every history (the insufficient-data default is 50). -/
theorem calculate_rsi_spec (prices : List ℚ) (period : ℕ) (_hp : 1 ≤ period) :
    (0 ≤ calculate_rsi prices period ∧ calculate_rsi prices period ≤ 100) ∧
    (period + 1 ≤ prices.length →
      ((calculate_rsi prices period = 100 ↔ rsiAvgLoss prices period = 0) ∧
       (rsiAvgLoss prices period ≠ 0 →
          calculate_rsi prices period =
            100 - 100 / (1 + rsiAvgGain prices period / rsiAvgLoss prices period)))) := by
  constructor
  · unfold calculate_rsi
    split_ifs with h1 h2
    · norm_num
    · norm_num
    · have := rsi_formula_bounds prices period
      exact ⟨this.1, le_of_lt this.2⟩
  · intro hlen
    have h1 : ¬ prices.length < period + 1 := by omega
    have heq0 : rsiAvgLoss prices period = 0 → calculate_rsi prices period = 100 := by
      intro h2
      unfold calculate_rsi
      rw [if_neg h1, if_pos h2]
    have heqn : rsiAvgLoss prices period ≠ 0 →
        calculate_rsi prices period =
          100 - 100 / (1 + rsiAvgGain prices period / rsiAvgLoss prices period) := by
      intro h2
      unfold calculate_rsi
      rw [if_neg h1, if_neg h2]
    refine ⟨⟨?_, heq0⟩, heqn⟩
    intro h100
    by_contra h2
    have := (rsi_formula_bounds prices period).2
    rw [← heqn h2] at this
    exact absurd h100 (ne_of_lt this)

/-- C4 witness: fifteen strictly rising prices with period 14 give zero
average loss, hence RSI exactly 100 and all the stated properties. -/
theorem calculate_rsi_spec_witness :
    (0 ≤ calculate_rsi [1, 2, 3, 4, 5, 6, 7, 8, 9, 10, 11, 12, 13, 14, 15] 14 ∧
      calculate_rsi [1, 2, 3, 4, 5, 6, 7, 8, 9, 10, 11, 12, 13, 14, 15] 14 ≤ 100) ∧
    (14 + 1 ≤ ([1, 2, 3, 4, 5, 6, 7, 8, 9, 10, 11, 12, 13, 14, 15] : List ℚ).length →
      ((calculate_rsi [1, 2, 3, 4, 5, 6, 7, 8, 9, 10, 11, 12, 13, 14, 15] 14 = 100 ↔
          rsiAvgLoss [1, 2, 3, 4, 5, 6, 7, 8, 9, 10, 11, 12, 13, 14, 15] 14 = 0) ∧
       (rsiAvgLoss [1, 2, 3, 4, 5, 6, 7, 8, 9, 10, 11, 12, 13, 14, 15] 14 ≠ 0 →
          calculate_rsi [1, 2, 3, 4, 5, 6, 7, 8, 9, 10, 11, 12, 13, 14, 15] 14 =
            100 - 100 / (1 + rsiAvgGain [1, 2, 3, 4, 5, 6, 7, 8, 9, 10, 11, 12, 13, 14, 15] 14 /
              rsiAvgLoss [1, 2, 3, 4, 5, 6, 7, 8, 9, 10, 11, 12, 13, 14, 15] 14)))) :=
  calculate_rsi_spec [1, 2, 3, 4, 5, 6, 7, 8, 9, 10, 11, 12, 13, 14, 15] 14 (by norm_num)

/-- An open position of `fake_wallet.py`: symbol, quantity, entry price and
the opened-at timestamp string. -/
structure Position where
  symbol : String
  quantity : ℚ
  entry_price : ℚ
  timestamp : String
deriving DecidableEq

/-- A record of `trade_history` in `fake_wallet.py`: BUY records carry the
cost, SELL records carry revenue and realized profit/loss. -/
inductive Trade where
  | buyRec (symbol : String) (quantity price cost : ℚ) (timestamp : String)
  | sellRec (symbol : String) (quantity price revenue profit_loss : ℚ) (timestamp : String)
deriving DecidableEq

/-- The wallet state persisted by `fake_wallet.py` (`data/wallet.json`):
balance, open positions and the append-only trade history. -/
structure Wallet where
  balance : ℚ
  open_positions : List Position
  trade_history : List Trade
deriving DecidableEq

/-- The SELL record appended for one position in `fake_wallet.sell`:
revenue is `price * quantity` and profit/loss is
`revenue - entry_price * quantity`. -/
def sellTradeOf (symbol : String) (price : ℚ) (ts : String) (p : Position) : Trade :=
  Trade.sellRec symbol p.quantity price (price * p.quantity)
    (price * p.quantity - p.entry_price * p.quantity) ts

/-- The per-position loop of `fake_wallet.sell`: for each position add its
revenue to the balance and append its SELL record. -/
def sellLoop (symbol : String) (price : ℚ) (ts : String) :
    List Position → ℚ → List Trade → ℚ × List Trade
  | [], balance, trades => (balance, trades)
  | p :: rest, balance, trades =>
      sellLoop symbol price ts rest (balance + price * p.quantity)
        (trades ++ [sellTradeOf symbol price ts p])

/-- `fake_wallet.sell`: fails leaving the wallet untouched when no open
position matches the symbol; otherwise runs the per-position loop and removes
every position of the symbol. -/
def sell (w : Wallet) (symbol : String) (price : ℚ) (ts : String) : Bool × Wallet :=
  let positions_to_sell := w.open_positions.filter fun p => decide (p.symbol = symbol)
  if positions_to_sell.isEmpty then (false, w)
  else
    let r := sellLoop symbol price ts positions_to_sell w.balance w.trade_history
    (true,
      { balance := r.1
        open_positions := w.open_positions.filter fun p => decide (¬ p.symbol = symbol)
        trade_history := r.2 })

/-- `fake_wallet.buy`: fails when the balance cannot cover the cost,
otherwise debits the cost, opens a position and appends a BUY record. -/
def buy (w : Wallet) (symbol : String) (price quantity : ℚ) (ts : String) : Bool × Wallet :=
  let cost := price * quantity
  if w.balance ≥ cost then
    (true,
      { balance := w.balance - cost
        open_positions := w.open_positions ++ [⟨symbol, quantity, price, ts⟩]
        trade_history := w.trade_history ++ [Trade.buyRec symbol quantity price cost ts] })
  else (false, w)

/-- Helper: the sell loop adds the summed revenues to the balance and appends
one SELL record per position, in order. -/
theorem sellLoop_eq (symbol : String) (price : ℚ) (ts : String) :
    ∀ (ps : List Position) (balance : ℚ) (trades : List Trade),
      sellLoop symbol price ts ps balance trades =
        (balance + (ps.map fun p => price * p.quantity).sum,
          trades ++ ps.map (sellTradeOf symbol price ts)) := by
  intro ps
  induction ps with
  | nil => intro balance trades; simp [sellLoop]
  | cons p rest ih =>
      intro balance trades
      rw [sellLoop, ih]
      simp
      ring

/-- C8: `sell` with no open position for the symbol fails and leaves the
wallet unchanged; otherwise it succeeds, credits the summed
`price * quantity` revenues, appends one SELL record per position with
profit/loss `revenue - entry_price * quantity`, and leaves no open position
for the symbol. -/
theorem sell_spec (w : Wallet) (symbol : String) (price : ℚ) (ts : String) :
    ((w.open_positions.filter fun p => decide (p.symbol = symbol)) = [] →
        sell w symbol price ts = (false, w)) ∧
    ((w.open_positions.filter fun p => decide (p.symbol = symbol)) ≠ [] →
      (sell w symbol price ts).1 = true ∧
      (sell w symbol price ts).2.balance =
        w.balance + ((w.open_positions.filter fun p => decide (p.symbol = symbol)).map
          fun p => price * p.quantity).sum ∧
      (sell w symbol price ts).2.trade_history =
        w.trade_history ++ (w.open_positions.filter fun p => decide (p.symbol = symbol)).map
          (sellTradeOf symbol price ts) ∧
      ((sell w symbol price ts).2.open_positions.filter
        fun p => decide (p.symbol = symbol)) = []) := by
  constructor
  · intro h
    unfold sell
    rw [h]
    rfl
  · intro h
    have hne : ((w.open_positions.filter fun p => decide (p.symbol = symbol)).isEmpty) = false := by
      cases hfe : w.open_positions.filter fun p => decide (p.symbol = symbol) with
      | nil => exact absurd hfe h
      | cons a l => rfl
    unfold sell
    simp only [hne, Bool.false_eq_true, if_false,
      sellLoop_eq symbol price ts]
    refine ⟨trivial, trivial, trivial, ?_⟩
    rw [List.filter_filter]
    apply List.filter_eq_nil_iff.mpr
    intro a _
    simp

/-- C8 witness: liquidating a wallet holding two open BTCUSDT positions
succeeds, credits both revenues, appends two SELL records with per-position
profit/loss, and empties the BTCUSDT positions. -/
theorem sell_spec_witness :
    (sell ⟨800, [⟨"BTCUSDT", 1, 100, "ta"⟩, ⟨"BTCUSDT", 2, 50, "tb"⟩], []⟩
        "BTCUSDT" 110 "ts").1 = true ∧
    (sell ⟨800, [⟨"BTCUSDT", 1, 100, "ta"⟩, ⟨"BTCUSDT", 2, 50, "tb"⟩], []⟩
        "BTCUSDT" 110 "ts").2.balance =
      (800 : ℚ) + (((⟨800, [⟨"BTCUSDT", 1, 100, "ta"⟩, ⟨"BTCUSDT", 2, 50, "tb"⟩], []⟩ :
          Wallet).open_positions.filter fun p => decide (p.symbol = "BTCUSDT")).map
        fun p => (110 : ℚ) * p.quantity).sum ∧
    (sell ⟨800, [⟨"BTCUSDT", 1, 100, "ta"⟩, ⟨"BTCUSDT", 2, 50, "tb"⟩], []⟩
        "BTCUSDT" 110 "ts").2.trade_history =
      ([] : List Trade) ++ (((⟨800, [⟨"BTCUSDT", 1, 100, "ta"⟩, ⟨"BTCUSDT", 2, 50, "tb"⟩], []⟩ :
          Wallet).open_positions.filter fun p => decide (p.symbol = "BTCUSDT")).map
        (sellTradeOf "BTCUSDT" 110 "ts")) ∧
    ((sell ⟨800, [⟨"BTCUSDT", 1, 100, "ta"⟩, ⟨"BTCUSDT", 2, 50, "tb"⟩], []⟩
        "BTCUSDT" 110 "ts").2.open_positions.filter
      fun p => decide (p.symbol = "BTCUSDT")) = [] :=
  (sell_spec ⟨800, [⟨"BTCUSDT", 1, 100, "ta"⟩, ⟨"BTCUSDT", 2, 50, "tb"⟩], []⟩
    "BTCUSDT" 110 "ts").2 (by decide)

/-- The price-history append of `on_kline_update` in `session_manager.py`:
`closes.append(price)` followed by `closes.pop(0)` when the length
exceeds 500. -/
def pushClose (closes : List ℚ) (price : ℚ) : List ℚ :=
  if (closes ++ [price]).length > 500 then (closes ++ [price]).drop 1
  else closes ++ [price]

/-- C6: appending to a full (length-500) buffer evicts exactly the oldest
entry and keeps the length at 500; any buffer within the cap stays within
the cap after an append. -/
theorem pushClose_cap (closes : List ℚ) (price : ℚ) :
    (closes.length = 500 →
      pushClose closes price = closes.drop 1 ++ [price] ∧
      (pushClose closes price).length = 500) ∧
    (closes.length ≤ 500 → (pushClose closes price).length ≤ 500) := by
  constructor
  · intro h
    unfold pushClose
    have hlen : (closes ++ [price]).length = 501 := by simp [h]
    rw [if_pos (by omega)]
    constructor
    · rw [List.drop_append_of_le_length (by omega)]
    · simp [hlen]
  · intro h
    unfold pushClose
    split_ifs with hgt
    · simp only [List.length_drop, List.length_append, List.length_singleton]
      omega
    · simp only [List.length_append, List.length_singleton] at hgt ⊢
      omega

/-- C6 witness: a concrete full buffer of 500 entries stays at 500 and drops
its head on append. -/
theorem pushClose_cap_witness :
    (pushClose (List.replicate 500 (3 : ℚ)) 7 =
      (List.replicate 500 (3 : ℚ)).drop 1 ++ [7] ∧
      (pushClose (List.replicate 500 (3 : ℚ)) 7).length = 500) ∧
    ((pushClose (List.replicate 500 (3 : ℚ)) 7).length ≤ 500) :=
  ⟨(pushClose_cap (List.replicate 500 (3 : ℚ)) 7).1 (by rw [List.length_replicate]),
   (pushClose_cap (List.replicate 500 (3 : ℚ)) 7).2 (by rw [List.length_replicate])⟩

/-- The per-candle observer message (`ws_data` in `session_manager.py`):
symbol, close price, indicators, signal and balance. -/
structure ObserverSnapshot where
  symbol : String
  price : ℚ
  rsi : Option ℚ
  sma : Option ℚ
  signal : String
  balance : ℚ
deriving DecidableEq

/-- The observable outcome of one `on_kline_update` call: the updated price
history, whether the observer (websocket) reference survives, the snapshot
that was computed for the candle (if it was a closed candle) and the snapshot
that was actually delivered. -/
structure KlineResult where
  closes : List ℚ
  has_observer : Bool
  computed : Option ObserverSnapshot
  delivered : Option ObserverSnapshot
deriving DecidableEq

/-- `on_kline_update` of `session_manager._stream_data`: on a closed candle,
append the close price (with the 500 cap), recompute the strategy over the
updated history, build the snapshot, and send it when an observer is bound —
a send failure (`send_ok = false`) clears the observer reference
(`self.websocket = None`) without aborting. -/
def on_kline_update (symbol : String) (balance : ℚ) (closes : List ℚ)
    (has_observer : Bool) (is_closed : Bool) (close_price : ℚ) (send_ok : Bool) :
    KlineResult :=
  if is_closed then
    let closes' := pushClose closes close_price
    let es := evaluate_strategy closes' 20 14
    let snap : ObserverSnapshot :=
      { symbol := symbol, price := close_price, rsi := es.2.1, sma := es.2.2,
        signal := es.1, balance := balance }
    if has_observer then
      if send_ok then
        { closes := closes', has_observer := true, computed := some snap,
          delivered := some snap }
      else
        { closes := closes', has_observer := false, computed := some snap,
          delivered := none }
    else
      { closes := closes', has_observer := false, computed := some snap,
        delivered := none }
  else
    { closes := closes, has_observer := has_observer, computed := none,
      delivered := none }

/-- The snapshot `on_kline_update` builds for a closed candle. -/
def snapshotFor (symbol : String) (balance : ℚ) (closes' : List ℚ)
    (close_price : ℚ) : ObserverSnapshot :=
  { symbol := symbol, price := close_price, rsi := (evaluate_strategy closes' 20 14).2.1,
    sma := (evaluate_strategy closes' 20 14).2.2,
    signal := (evaluate_strategy closes' 20 14).1, balance := balance }

/-- C9: a failed observer push on a closed candle still appends the price and
recomputes the signal, clears the observer reference, delivers nothing — and
the next closed candle is processed (history appended) with no observer. -/
theorem observer_failure_isolated (symbol : String) (balance : ℚ) (closes : List ℚ)
    (close_price : ℚ) :
    (on_kline_update symbol balance closes true true close_price false).closes =
        pushClose closes close_price ∧
    (on_kline_update symbol balance closes true true close_price false).has_observer =
        false ∧
    (on_kline_update symbol balance closes true true close_price false).computed =
        some (snapshotFor symbol balance (pushClose closes close_price) close_price) ∧
    (on_kline_update symbol balance closes true true close_price false).delivered =
        none ∧
    (∀ (balance2 price2 : ℚ) (send_ok2 : Bool),
      (on_kline_update symbol balance2
          (on_kline_update symbol balance closes true true close_price false).closes
          false true price2 send_ok2).closes =
        pushClose (pushClose closes close_price) price2) := by
  refine ⟨rfl, rfl, rfl, rfl, ?_⟩
  intro balance2 price2 send_ok2
  rfl

/-- The two lifecycle booleans of `SessionManager`: `self.is_active` and the
`self._stop_event` asyncio event (modelled as its set/unset state). -/
structure SessionFlags where
  is_active : Bool
  stop_event : Bool
deriving DecidableEq

/-- `SessionManager.stop_trading`: sets `is_active = False` and sets the stop
event. -/
def stop_trading (_s : SessionFlags) : SessionFlags :=
  { is_active := false, stop_event := true }

/-- The `finally` of `SessionManager._stream_data`: on feed failure or
termination it sets the stop event and nothing else. -/
def stream_data_finally (s : SessionFlags) : SessionFlags :=
  { s with stop_event := true }

/-- The `while` guard of `SessionManager._trading_loop`:
`self.is_active and time.time() - start_time < self.duration`. -/
def trading_loop_continues (s : SessionFlags) (elapsed duration : ℕ) : Bool :=
  s.is_active && decide (elapsed < duration)

/-- The liquidation price chosen by `_trading_loop`'s `finally`:
`closes[-1]` when history is nonempty, else `get_balance() / 100`. -/
def fallback_price (closes : List ℚ) (balance : ℚ) : ℚ :=
  match closes.getLast? with
  | some p => p
  | none => balance / 100

/-- A session summary as computed by `summary_report.generate_summary`
(the `round(...)` calls and the timestamp/roi presentation fields are
omitted as pure formatting of the same quantities). -/
structure Summary where
  symbol : String
  timeframe : String
  duration : ℕ
  trades : ℕ
  wins : ℕ
  losses : ℕ
  total_profit : ℚ
  final_balance : ℚ
deriving DecidableEq

/-- The profit_loss field of a trade record, defaulting to 0: BUY records
carry no profit/loss. -/
def tradeProfitLoss : Trade → ℚ
  | Trade.buyRec _ _ _ _ _ => 0
  | Trade.sellRec _ _ _ _ pl _ => pl

/-- `summary_report.generate_summary` over the wallet state. -/
def generate_summary (symbol timeframe : String) (duration : ℕ) (w : Wallet) :
    Summary :=
  { symbol := symbol, timeframe := timeframe, duration := duration
    trades := w.trade_history.length
    wins := (w.trade_history.filter fun t => decide (0 < tradeProfitLoss t)).length
    losses := (w.trade_history.filter fun t => decide (tradeProfitLoss t < 0)).length
    total_profit := w.balance - 1000
    final_balance := w.balance }

/-- The `finally` block of `SessionManager._trading_loop`: liquidation runs
only under `if self.is_active:`; then the summary is generated and
`is_active` is cleared. Returns the final wallet, the summary and the final
flags. -/
def trading_loop_finally (s : SessionFlags) (closes : List ℚ)
    (symbol timeframe ts : String) (duration : ℕ) (w : Wallet) :
    Wallet × Summary × SessionFlags :=
  let w2 := if s.is_active then (sell w symbol (fallback_price closes w.balance) ts).2 else w
  (w2, generate_summary symbol timeframe duration w2, { s with is_active := false })

/-- C2 evidence: the stream loop's failure handler sets the stop event, but
the trading-loop guard only reads `is_active`, so the evaluation loop keeps
running — here concretely at 10 elapsed seconds of a 3600-second session —
and in general the guard's value never depends on the stop event. -/
theorem feed_failure_not_observed_by_trading_loop :
    (stream_data_finally ⟨true, false⟩).stop_event = true ∧
    trading_loop_continues (stream_data_finally ⟨true, false⟩) 10 3600 = true ∧
    (∀ (a se : Bool) (elapsed duration : ℕ),
      trading_loop_continues (stream_data_finally ⟨a, se⟩) elapsed duration =
        trading_loop_continues ⟨a, se⟩ elapsed duration) := by
  refine ⟨rfl, by decide, ?_⟩
  intro a se elapsed duration
  rfl

/-- C1 evidence: after a manual stop (`stop_trading` clears `is_active`
before the loop exits), the `finally` block skips liquidation — the session
ends `is_active = false` with its open BTCUSDT position intact and a summary
generated over the un-liquidated wallet — whereas on duration expiry
(`is_active` still true) the same block does liquidate. -/
theorem manual_stop_skips_liquidation :
    (trading_loop_finally (stop_trading ⟨true, false⟩) [105] "BTCUSDT" "1m" "t1" 60
        ⟨900, [⟨"BTCUSDT", 1, 100, "t0"⟩], []⟩).1.open_positions =
      [⟨"BTCUSDT", 1, 100, "t0"⟩] ∧
    (trading_loop_finally (stop_trading ⟨true, false⟩) [105] "BTCUSDT" "1m" "t1" 60
        ⟨900, [⟨"BTCUSDT", 1, 100, "t0"⟩], []⟩).2.2.is_active = false ∧
    (trading_loop_finally ⟨true, false⟩ [105] "BTCUSDT" "1m" "t1" 60
        ⟨900, [⟨"BTCUSDT", 1, 100, "t0"⟩], []⟩).1.open_positions = [] := by
  refine ⟨rfl, rfl, by decide⟩

/-- The fixed symbol allow-list of `binance_client.py`. -/
def valid_symbols : List String :=
  ["BTCUSDT", "ETHUSDT", "BNBUSDT", "ADAUSDT", "XRPUSDT"]

/-- The fixed timeframe allow-list of `binance_client.py`. -/
def valid_timeframes : List String :=
  ["1m", "5m", "15m", "1h", "4h", "1d"]

/-- The part of a `SessionManager` instance the control layer observes:
its constructor arguments and its `is_active` flag. -/
structure SessionRec where
  symbol : String
  timeframe : String
  duration : ℤ
  is_active : Bool
deriving DecidableEq

/-- The module-level state of `main.py` relevant to session control: the
optional `session_manager` global. -/
structure ServerState where
  session : Option SessionRec
deriving DecidableEq

/-- The duplicate-session test of `main.start_session`:
`session_manager and session_manager.is_active`. -/
def session_is_active (st : ServerState) : Bool :=
  match st.session with
  | some s => s.is_active
  | none => false

/-- Outcome of a control request: an HTTPException with a detail string, or
success. -/
inductive StartResult where
  | httpError (detail : String)
  | ok
deriving DecidableEq

/-- Whether a control outcome is an error. -/
def StartResult.isError : StartResult → Bool
  | StartResult.httpError _ => true
  | StartResult.ok => false

/-- `main.start_session`: reject while a session is active; uppercase the
symbol and lowercase the timeframe; reject when either normalised value is
outside its allow-list or the duration is nonpositive; otherwise install the
new session (whose `start_trading` sets `is_active`). Each rejection raises
before the global is reassigned, leaving the state unchanged. -/
def start_session (st : ServerState) (symbol timeframe : String) (duration : ℤ) :
    StartResult × ServerState :=
  if session_is_active st then
    (StartResult.httpError "A session is already active. Please stop it first.", st)
  else if ¬ symbol.toUpper ∈ valid_symbols then
    (StartResult.httpError "Invalid symbol", st)
  else if ¬ timeframe.toLower ∈ valid_timeframes then
    (StartResult.httpError "Invalid timeframe", st)
  else if duration ≤ 0 then
    (StartResult.httpError "Duration must be a positive integer.", st)
  else
    (StartResult.ok,
      { session := some
          { symbol := symbol.toUpper, timeframe := timeframe.toLower,
            duration := duration, is_active := true } })

/-- C7: `start_session` rejects exactly when a session is active, the
normalised symbol or timeframe is outside its allow-list, or the duration is
nonpositive; every rejection leaves the server state (and hence any running
session) unchanged. -/
theorem start_session_rejects_exactly (st : ServerState) (symbol timeframe : String)
    (duration : ℤ) :
    ((start_session st symbol timeframe duration).1.isError = true ↔
      (session_is_active st = true ∨ ¬ symbol.toUpper ∈ valid_symbols ∨
        ¬ timeframe.toLower ∈ valid_timeframes ∨ duration ≤ 0)) ∧
    ((start_session st symbol timeframe duration).1.isError = true →
      (start_session st symbol timeframe duration).2 = st) := by
  unfold start_session
  split_ifs with h1 h2 h3 h4 <;>
    simp_all [StartResult.isError]

/-- C7 witness: with a BTCUSDT session active, a second start request (even a
fully valid one) errors and leaves the state, including the running session,
unchanged. -/
theorem start_session_rejects_exactly_witness :
    (start_session ⟨some ⟨"BTCUSDT", "1m", 60, true⟩⟩ "ETHUSDT" "1m" 60).1.isError =
      true ∧
    (start_session ⟨some ⟨"BTCUSDT", "1m", 60, true⟩⟩ "ETHUSDT" "1m" 60).2 =
      ⟨some ⟨"BTCUSDT", "1m", 60, true⟩⟩ :=
  ⟨(start_session_rejects_exactly ⟨some ⟨"BTCUSDT", "1m", 60, true⟩⟩ "ETHUSDT" "1m"
      60).1.mpr (Or.inl rfl),
   (start_session_rejects_exactly ⟨some ⟨"BTCUSDT", "1m", 60, true⟩⟩ "ETHUSDT" "1m"
      60).2 ((start_session_rejects_exactly ⟨some ⟨"BTCUSDT", "1m", 60, true⟩⟩
        "ETHUSDT" "1m" 60).1.mpr (Or.inl rfl))⟩

end TradingBot
